import Mathlib

/-!
Shallow embedding of the conversation-state and order-extraction core of the
social_commerce repository: the `handleMessage` orchestration of the webhook
controller (the catalog-aware variant that persists Orders), together with the
pure phone helpers and the classifier-adapter fallback of the AI service.

Modelling conventions:
- JavaScript nullable values become `Option`; JS falsiness on strings
  (`null`/`undefined`/`""`) and on numbers (`null`/`undefined`/`0`) is made
  explicit through the `jsOrStr` / `jsOrNum` / `jsFalsyStr` helpers, mirroring
  the `x || default` and `!x` idioms of the source.
- The classifier confidence is a JSON number, modelled as a rational.
- The external calls of `handleMessage` (classifier, reply generation,
  messenger send, spreadsheet mirror) are out of scope per the specification;
  the classifier result is therefore an input of the embedded core, and the one
  fallible persistence step the error-handling claims are about — the Order
  save — is modelled by an explicit `orderSaveThrows` flag.  A throw there
  propagates to the surrounding catch, so the conversation save that persists
  the status and intent mutations is never reached on that path.
-/

namespace SocialCommerce

/-- JS idiom `s || d` on a nullable string: the default is taken when the value
is `null`/`undefined` (`none`) or the empty string (both falsy). -/
def jsOrStr (v : Option String) (d : String) : String :=
  match v with
  | none => d
  | some s => if s = "" then d else s

/-- JS idiom `n || d` on a nullable number: the default is taken when the value
is `null`/`undefined` (`none`) or `0` (both falsy). -/
def jsOrNum (v : Option Int) (d : Int) : Int :=
  match v with
  | none => d
  | some n => if n = 0 then d else n

/-- JS idiom `!s` on a nullable string: true when the value is falsy
(`null`/`undefined` or the empty string). -/
def jsFalsyStr (v : Option String) : Bool :=
  match v with
  | none => true
  | some s => s = ""

/-- One entry of `data.items` in the classifier result (schema of the
catalog-aware `processMessage` prompt: name, quantity, price, attributes). -/
structure ExtractedItem where
  name : Option String
  quantity : Option Int
  price : Option Int
deriving Repr, DecidableEq

/-- The `data` field of the classifier result. -/
structure AiData where
  items : List ExtractedItem
  phone : Option String
  full_address : Option String
deriving Repr, DecidableEq

/-- The structured classifier result consumed by `handleMessage`. -/
structure AiResult where
  intent : Option String
  isOrderReady : Bool
  confidence : ℚ
  data : AiData
  missingFields : List String
deriving Repr, DecidableEq

/-- The deterministic safe-fallback value returned by the catch branch of
`processMessage` in `aiService.js`. -/
def fallbackResult : AiResult :=
  { intent := some "other"
    isOrderReady := false
    confidence := 0
    data := { items := [], phone := none, full_address := none }
    missingFields := ["items"] }

/-- The whole try block of `processMessage` (history formatting, the model
call, `JSON.parse` of the content) is modelled as one `Except` outcome: `error`
covers a thrown call as well as unparsable content, since both raise inside the
same try.  The catch returns the fixed fallback, so the function is total: no
transport error ever propagates to the caller. -/
def processMessage (outcome : Except String AiResult) : AiResult :=
  match outcome with
  | .ok r => r
  | .error _ => fallbackResult

/-- The regex test `/^[6-9]\d{7}$/.test(cleaned)` of `validatePhoneNumber`,
applied to the character list of the cleaned string. -/
def phoneRegexTest : List Char → Bool
  | [] => false
  | c :: rest =>
      (c = '6' || c = '7' || c = '8' || c = '9') &&
        decide (rest.length = 7) && rest.all Char.isDigit

/-- `validatePhoneNumber` from `aiService.js`: reject falsy input, strip all
non-digit characters (`replace(/\D/g, "")`), then require exactly 8 digits and
the leading-digit regex. -/
def validatePhoneNumber (phoneNumber : Option String) : Bool :=
  match phoneNumber with
  | none => false
  | some s =>
      if s = "" then false
      else
        let cleaned := s.toList.filter Char.isDigit
        decide (cleaned.length = 8) && phoneRegexTest cleaned

/-- `normalizePhoneNumber` from `aiService.js`: reject falsy input, strip all
non-digit characters, return the cleaned string iff exactly 8 digits remain,
else `null`. -/
def normalizePhoneNumber (phoneNumber : Option String) : Option String :=
  match phoneNumber with
  | none => none
  | some s =>
      if s = "" then none
      else
        let cleaned := String.mk (s.toList.filter Char.isDigit)
        if cleaned.length = 8 then some cleaned else none

/-- One persisted Order line item (`itemName`, `quantity`, `price`). -/
structure OrderItem where
  itemName : String
  quantity : Int
  price : Int
deriving Repr, DecidableEq

/-- The Order record assembled by the order-creation branch of
`handleMessage`, with the extraction provenance fields the claims refer to. -/
structure OrderData where
  phoneNumber : String
  address : String
  items : List OrderItem
  totalAmount : Int
  confidence : ℚ
  needsReview : Bool
  rawMessage : String
  status : String
deriving Repr, DecidableEq

/-- The readiness gate of `handleMessage`:
`aiResult.intent === "ordering" && aiResult.isOrderReady &&
aiResult.confidence > 0.6`. -/
def orderGate (r : AiResult) : Bool :=
  decide (r.intent = some "ordering") && r.isOrderReady &&
    decide (mkRat 6 10 < r.confidence)

/-- The `orderData` object literal built inside the gate-passing branch of
`handleMessage`: phone and address fall back to their literal defaults on
falsy extraction values, items are mapped one-to-one with `item.name || "Бараа"`
and `item.quantity || 1` and a constant `price: 0`, `totalAmount` is the
constant `0`, and `needsReview` is
`!aiResult.data.phone || !aiResult.data.full_address`. -/
def buildOrderData (messageText : String) (r : AiResult) : OrderData :=
  { phoneNumber := jsOrStr r.data.phone "99999999"
    address := jsOrStr r.data.full_address "Хаяг тодорхойгүй"
    items := r.data.items.map (fun item =>
      { itemName := jsOrStr item.name "Бараа"
        quantity := jsOrNum item.quantity 1
        price := 0 })
    totalAmount := 0
    confidence := r.confidence
    needsReview := jsFalsyStr r.data.phone || jsFalsyStr r.data.full_address
    rawMessage := messageText
    status := "pending" }

/-- What one run of the text-message path of `handleMessage` persists: the
Orders saved, the conversation status and intent as stored by the conversation
save, and whether the surrounding catch absorbed a thrown error. -/
structure HandleOutcome where
  savedOrders : List OrderData
  finalStatus : String
  finalIntent : String
  caughtError : Bool
deriving Repr, DecidableEq

/-- The decision core of `handleMessage` (text-message branch) from the
order-persisting webhook controller, after the classifier call returned `r`,
for a conversation whose persisted status and intent are `prevStatus` and
`prevIntent`:
- `conversation.currentIntent = aiResult.intent || "browsing"` (in memory);
- if the readiness gate passes, the Order is built and saved; when the save
  throws (`orderSaveThrows`) control jumps to the catch and the conversation
  save is never reached, so the persisted status and intent keep their prior
  values; otherwise `conversation.status = "order_created"`;
- if the gate fails, `conversation.status = "waiting_for_info"` exactly when
  `aiResult.intent === "ordering" && !aiResult.isOrderReady`, else the status
  is left unchanged;
- on the non-throwing paths `conversation.save()` persists the status and
  intent mutations. -/
def handleMessage (prevStatus prevIntent messageText : String) (r : AiResult)
    (orderSaveThrows : Bool) : HandleOutcome :=
  let newIntent := jsOrStr r.intent "browsing"
  if orderGate r then
    if orderSaveThrows then
      { savedOrders := []
        finalStatus := prevStatus
        finalIntent := prevIntent
        caughtError := true }
    else
      { savedOrders := [buildOrderData messageText r]
        finalStatus := "order_created"
        finalIntent := newIntent
        caughtError := false }
  else
    { savedOrders := []
      finalStatus :=
        if r.intent = some "ordering" ∧ r.isOrderReady = false then
          "waiting_for_info"
        else prevStatus
      finalIntent := newIntent
      caughtError := false }

/-- Re-delivery of the identical webhook event: the handler runs twice on the
same message and classifier result, the second run starting from the
conversation state the first run persisted.  Returns all Orders saved. -/
def redeliverTwice (prevStatus prevIntent messageText : String)
    (r : AiResult) : List OrderData :=
  let first := handleMessage prevStatus prevIntent messageText r false
  let second :=
    handleMessage first.finalStatus first.finalIntent messageText r false
  first.savedOrders ++ second.savedOrders

/-- The scenario message of the specification: one catalog item, quantity 2,
phone and district-level address present. -/
def scenarioMessage : String :=
  "2 ширхэг хар цамц авъя. Утас: 99112233. БЗД 14-р хороо"

/-- The mocked classifier result of the specification scenario:
`isOrderReady=true`, `confidence=0.9`, one item of quantity 2 and price 15000,
phone and full address extracted. -/
def scenarioResult : AiResult :=
  { intent := some "ordering"
    isOrderReady := true
    confidence := mkRat 9 10
    data :=
      { items := [{ name := some "хар цамц", quantity := some 2,
                    price := some 15000 }]
        phone := some "99112233"
        full_address := some "Баянзүрх дүүрэг, 14-р хороо" }
    missingFields := [] }

/-- The boundary classifier result: structurally ready but with confidence
exactly 0.6. -/
def borderlineResult : AiResult :=
  { scenarioResult with confidence := mkRat 6 10 }

/-- A classifier result that passes the readiness gate while its extracted
items list is empty. -/
def emptyItemsResult : AiResult :=
  { intent := some "ordering"
    isOrderReady := true
    confidence := mkRat 9 10
    data :=
      { items := []
        phone := some "99112233"
        full_address := some "Хан-Уул дүүрэг, 3-р хороо" }
    missingFields := [] }

/-- A classifier result that passes the readiness gate with no extracted
phone. -/
def noPhoneResult : AiResult :=
  { scenarioResult with
      data := { scenarioResult.data with phone := none } }

lemma orderGate_eq_true_iff (r : AiResult) :
    orderGate r = true ↔
      (r.intent = some "ordering" ∧ r.isOrderReady = true ∧
        mkRat 6 10 < r.confidence) := by
  simp [orderGate, Bool.and_eq_true, decide_eq_true_eq, and_assoc]

lemma filter_isDigit_all (l : List Char) :
    (l.filter Char.isDigit).all Char.isDigit = true := by
  simp [List.all_eq_true, List.mem_filter]

lemma validatePhoneNumber_some (s : String) :
    validatePhoneNumber (some s) =
      (decide ((s.toList.filter Char.isDigit).length = 8) &&
        phoneRegexTest (s.toList.filter Char.isDigit)) := by
  by_cases hs : s = ""
  · subst hs; decide
  · simp [validatePhoneNumber, hs]

lemma phoneCheck_iff (l : List Char) (hall : l.all Char.isDigit = true) :
    (decide (l.length = 8) && phoneRegexTest l) = true ↔
      (l.length = 8 ∧ ∃ c, l.head? = some c ∧
        (c = '6' ∨ c = '7' ∨ c = '8' ∨ c = '9')) := by
  cases l with
  | nil => simp [phoneRegexTest]
  | cons c rest =>
    have hrest : rest.all Char.isDigit = true := by
      rw [List.all_cons, Bool.and_eq_true] at hall
      exact hall.2
    simp [phoneRegexTest, hrest, Bool.and_eq_true, decide_eq_true_eq,
      Bool.or_eq_true, List.length_cons]
    tauto

/-- C3: an Order is persisted by the handler (with the Order save succeeding)
if and only if the classifier result has intent "ordering", isOrderReady true
and confidence strictly greater than 0.6; in particular, at confidence exactly
0.6 with intent "ordering" and isOrderReady true, no Order is created. -/
theorem c3_readiness_gate :
    (∀ st it msg r, (handleMessage st it msg r false).savedOrders ≠ [] ↔
      (r.intent = some "ordering" ∧ r.isOrderReady = true ∧
        mkRat 6 10 < r.confidence)) ∧
    (handleMessage "new" "browsing" scenarioMessage borderlineResult
        false).savedOrders = [] := by
  constructor
  · intro st it msg r
    rw [← orderGate_eq_true_iff]
    by_cases hg : orderGate r = true <;> simp [handleMessage, hg]
  · decide

/-- C4: when the classifier adapter call throws or its content is unparsable
(the error outcome of the try block), processMessage returns exactly the fixed
fallback value with intent "other", isOrderReady false, confidence 0, empty
items, null phone and address, and missingFields ["items"]; being a total
function into AiResult, it never propagates the raw transport error. -/
theorem c4_adapter_fallback :
    ∀ e : String, processMessage (Except.error e) =
      { intent := some "other"
        isOrderReady := false
        confidence := 0
        data := { items := [], phone := none, full_address := none }
        missingFields := ["items"] } := by
  intro e
  rfl

/-- C5: the Order write precedes the conversation status update.  When the
readiness gate passes and the Order save throws, no Order is persisted, the
error is caught by the handler, and the persisted conversation status keeps
its prior value; when the save succeeds, the status becomes order_created. -/
theorem c5_order_before_status :
    ∀ st it msg r, orderGate r = true →
      (handleMessage st it msg r true).savedOrders = [] ∧
      (handleMessage st it msg r true).finalStatus = st ∧
      (handleMessage st it msg r true).caughtError = true ∧
      (handleMessage st it msg r false).finalStatus = "order_created" := by
  intro st it msg r hg
  simp [handleMessage, hg]

/-- Witness for C5 at the specification scenario, starting from status new. -/
theorem c5_witness :
    orderGate scenarioResult = true ∧
    ((handleMessage "new" "browsing" scenarioMessage scenarioResult
        true).savedOrders = [] ∧
      (handleMessage "new" "browsing" scenarioMessage scenarioResult
        true).finalStatus = "new" ∧
      (handleMessage "new" "browsing" scenarioMessage scenarioResult
        true).caughtError = true ∧
      (handleMessage "new" "browsing" scenarioMessage scenarioResult
        false).finalStatus = "order_created") :=
  ⟨by decide,
    c5_order_before_status "new" "browsing" scenarioMessage scenarioResult
      (by decide)⟩

/-- C6 counterexample: on the fallback classifier result, whose intent is the
unrecognized non-empty string "other", the handler stores currentIntent
"other" rather than defaulting to "browsing", refuting the claim that
unrecognized intents default to browsing. -/
theorem c6_counterexample :
    (handleMessage "new" "browsing" scenarioMessage fallbackResult
        false).finalIntent = "other" ∧
    ¬ (handleMessage "new" "browsing" scenarioMessage fallbackResult
        false).finalIntent = "browsing" := by
  decide

/-- C6 amended: after every classifier result, currentIntent is set to the
classifier intent, defaulting to "browsing" exactly when the intent is absent
or the empty string (JS falsiness); any other string, recognized or not, is
stored unchanged. -/
theorem c6_intent_update :
    ∀ st it msg r, (handleMessage st it msg r false).finalIntent =
      (match r.intent with
       | none => "browsing"
       | some s => if s = "" then "browsing" else s) := by
  intro st it msg r
  by_cases hg : orderGate r = true <;> simp [handleMessage, hg, jsOrStr]

/-- C8: validatePhoneNumber returns true exactly when the input is a string
whose digit-only form has length 8 and starts with 6, 7, 8 or 9; null and
empty input are invalid; with the concrete examples of the specification. -/
theorem c8_validate_phone :
    (∀ p : Option String, validatePhoneNumber p = true ↔
      ∃ s, p = some s ∧ (s.toList.filter Char.isDigit).length = 8 ∧
        ∃ c, (s.toList.filter Char.isDigit).head? = some c ∧
          (c = '6' ∨ c = '7' ∨ c = '8' ∨ c = '9')) ∧
    validatePhoneNumber (some "99112233") = true ∧
    validatePhoneNumber (some "9911-2233") = true ∧
    validatePhoneNumber (some "12345678") = false ∧
    validatePhoneNumber (some "991122") = false ∧
    validatePhoneNumber none = false ∧
    validatePhoneNumber (some "") = false := by
  refine ⟨?_, by decide, by decide, by decide, by decide, by decide, by decide⟩
  intro p
  cases p with
  | none => simp [validatePhoneNumber]
  | some s =>
    rw [validatePhoneNumber_some,
      phoneCheck_iff (s.toList.filter Char.isDigit)
        (filter_isDigit_all s.toList)]
    constructor
    · intro h
      exact ⟨s, rfl, h⟩
    · rintro ⟨s2, heq, h⟩
      injection heq with h2
      subst h2
      exact h

/-- C1 counterexample: re-delivering the identical webhook event creates a
second Order, and even a conversation whose status is already order_created
gets a fresh Order saved when the classifier gate passes again — the handler
never consults the conversation status before saving. -/
theorem c1_counterexample :
    (redeliverTwice "new" "browsing" scenarioMessage scenarioResult).length
        = 2 ∧
    (handleMessage "order_created" "ordering" scenarioMessage scenarioResult
        false).savedOrders.length = 1 := by
  decide

/-- C1 amended: order creation is gated only on the classifier result (intent
"ordering", isOrderReady, confidence above 0.6); the conversation status —
including order_created — is never consulted, so whenever the gate passes an
Order is saved regardless of the prior status, and reprocessing the same
inbound event saves a second Order. -/
theorem c1_gate_ignores_status :
    ∀ st it msg r, orderGate r = true →
      (handleMessage st it msg r false).savedOrders.length = 1 ∧
      (redeliverTwice st it msg r).length = 2 := by
  intro st it msg r hg
  constructor <;> simp [handleMessage, redeliverTwice, hg]

/-- Witness for C1 amended, starting from an already order_created
conversation. -/
theorem c1_witness :
    orderGate scenarioResult = true ∧
    ((handleMessage "order_created" "ordering" scenarioMessage scenarioResult
        false).savedOrders.length = 1 ∧
      (redeliverTwice "order_created" "ordering" scenarioMessage
        scenarioResult).length = 2) :=
  ⟨by decide,
    c1_gate_ignores_status "order_created" "ordering" scenarioMessage
      scenarioResult (by decide)⟩

/-- C2 counterexample: on the specification scenario (one extracted item with
quantity 2 and price 15000), the persisted Order carries line-item price 0 and
totalAmount 0, not the claimed 30000. -/
theorem c2_counterexample :
    (handleMessage "new" "browsing" scenarioMessage scenarioResult
        false).savedOrders.map OrderData.totalAmount = [0] ∧
    (handleMessage "new" "browsing" scenarioMessage scenarioResult
        false).savedOrders.map (fun od => od.items.map OrderItem.price)
        = [[0]] ∧
    ¬ (handleMessage "new" "browsing" scenarioMessage scenarioResult
        false).savedOrders.map OrderData.totalAmount = [30000] := by
  decide

/-- C2 amended: when the readiness gate passes, the persisted Order line items
are mapped one-to-one from the extracted items with a falsy (missing, empty or
zero) name or quantity defaulting to "Бараа" and 1, but the unit price is
always persisted as 0 regardless of the extracted price, and the Order
totalAmount is always persisted as the constant 0. -/
theorem c2_item_mapping :
    ∀ st it msg r, orderGate r = true →
      (handleMessage st it msg r false).savedOrders.map (fun od => od.items)
          = [r.data.items.map (fun item =>
              { itemName :=
                  match item.name with
                  | none => "Бараа"
                  | some s => if s = "" then "Бараа" else s
                quantity :=
                  match item.quantity with
                  | none => 1
                  | some q => if q = 0 then 1 else q
                price := 0 })] ∧
      (handleMessage st it msg r false).savedOrders.map OrderData.totalAmount
          = [0] := by
  intro st it msg r hg
  constructor <;> simp [handleMessage, hg, buildOrderData, jsOrStr, jsOrNum]

/-- Witness for C2 amended at the specification scenario. -/
theorem c2_witness :
    orderGate scenarioResult = true ∧
    ((handleMessage "new" "browsing" scenarioMessage scenarioResult
        false).savedOrders.map (fun od => od.items)
          = [scenarioResult.data.items.map (fun item =>
              { itemName :=
                  match item.name with
                  | none => "Бараа"
                  | some s => if s = "" then "Бараа" else s
                quantity :=
                  match item.quantity with
                  | none => 1
                  | some q => if q = 0 then 1 else q
                price := 0 })] ∧
      (handleMessage "new" "browsing" scenarioMessage scenarioResult
        false).savedOrders.map OrderData.totalAmount = [0]) :=
  ⟨by decide,
    c2_item_mapping "new" "browsing" scenarioMessage scenarioResult
      (by decide)⟩

/-- C7 counterexample: a classifier result with intent "ordering",
isOrderReady true, confidence 0.9 and an empty extracted items list passes the
readiness gate, and the handler persists an Order whose items list is empty. -/
theorem c7_counterexample :
    (handleMessage "new" "browsing" scenarioMessage emptyItemsResult
        false).savedOrders.length = 1 ∧
    (handleMessage "new" "browsing" scenarioMessage emptyItemsResult
        false).savedOrders.map (fun od => od.items) = [[]] := by
  decide

/-- C7 amended: every persisted Order has exactly as many line items as the
classifier extraction, so its items list is non-empty exactly when the
extracted items list is; the creation path never checks non-emptiness. -/
theorem c7_items_length :
    ∀ st it msg r, orderGate r = true →
      (handleMessage st it msg r false).savedOrders.map
          (fun od => od.items.length) = [r.data.items.length] := by
  intro st it msg r hg
  simp [handleMessage, hg, buildOrderData]

/-- Witness for C7 amended at the specification scenario (one item). -/
theorem c7_witness :
    orderGate scenarioResult = true ∧
    (handleMessage "new" "browsing" scenarioMessage scenarioResult
        false).savedOrders.map (fun od => od.items.length) = [1] :=
  ⟨by decide,
    c7_items_length "new" "browsing" scenarioMessage scenarioResult
      (by decide)⟩

/-- C9: on a string of exactly 8 digit characters, normalizePhoneNumber
returns the same string unchanged, so applying it twice equals applying it
once. -/
theorem c9_normalize_idempotent (s : String)
    (hd : s.toList.all Char.isDigit = true) (hl : s.toList.length = 8) :
    normalizePhoneNumber (some s) = some s ∧
    normalizePhoneNumber (normalizePhoneNumber (some s)) =
      normalizePhoneNumber (some s) := by
  have hnil : s.toList ≠ [] := by
    intro hn
    rw [hn] at hl
    simp at hl
  have hs : s ≠ "" := by
    intro h
    apply hnil
    rw [h]
    rfl
  have hfilter : s.toList.filter Char.isDigit = s.toList :=
    List.filter_eq_self.mpr (by simpa [List.all_eq_true] using hd)
  have hmk : String.mk s.toList = s := by
    cases s
    rfl
  have hlen : (String.mk s.toList).length = 8 := hl
  have h1 : normalizePhoneNumber (some s) = some s := by
    simp only [normalizePhoneNumber, if_neg hs, hfilter]
    rw [if_pos hlen, hmk]
  refine ⟨h1, ?_⟩
  rw [h1]
  exact h1

/-- Witness for C9 at the already-normalized phone string of the scenario. -/
theorem c9_witness :
    ("99112233".toList.all Char.isDigit = true ∧
      "99112233".toList.length = 8) ∧
    (normalizePhoneNumber (some "99112233") = some "99112233" ∧
      normalizePhoneNumber (normalizePhoneNumber (some "99112233")) =
        normalizePhoneNumber (some "99112233")) :=
  ⟨⟨by decide, by decide⟩,
    c9_normalize_idempotent "99112233" (by decide) (by decide)⟩

/-- C10: when the readiness gate passes with a falsy (null or empty) extracted
phone, the persisted Order phoneNumber is the literal "99999999", which
validatePhoneNumber accepts — indistinguishable from a genuine valid phone. -/
theorem c10_phone_sentinel :
    ∀ st it msg r, orderGate r = true →
      (r.data.phone = none ∨ r.data.phone = some "") →
      (handleMessage st it msg r false).savedOrders.map
          OrderData.phoneNumber = ["99999999"] ∧
      validatePhoneNumber (some "99999999") = true := by
  intro st it msg r hg hp
  refine ⟨?_, by decide⟩
  rcases hp with h | h <;>
    simp [handleMessage, hg, buildOrderData, jsOrStr, h]

/-- Witness for C10 at the scenario result with its phone removed. -/
theorem c10_witness :
    (orderGate noPhoneResult = true ∧
      (noPhoneResult.data.phone = none ∨
        noPhoneResult.data.phone = some "")) ∧
    ((handleMessage "new" "browsing" scenarioMessage noPhoneResult
        false).savedOrders.map OrderData.phoneNumber = ["99999999"] ∧
      validatePhoneNumber (some "99999999") = true) :=
  ⟨⟨by decide, Or.inl rfl⟩,
    c10_phone_sentinel "new" "browsing" scenarioMessage noPhoneResult
      (by decide) (Or.inl rfl)⟩

end SocialCommerce
